import Mathlib

/-!
Verification of the user-account and authentication core of the
`py-modest-user-api` repository (file `src/user_api/user_api.py`).

The `UserApi` facade is translated method by method into Lean functions.
Its collaborators (the credential store `DBUserManager`, the role store
`DBRoleManager` and the token authority `AuthManager`) are not part of the
source tree; they are modelled from the contracts given in the spec
(sections 4.1 and 6).  Python dictionaries are modelled as insertion-ordered
association lists of string keys and dynamic values; Python exceptions are
modelled by an explicit error monad whose error type distinguishes the
public API taxonomy from raw store exceptions and from plain Python
runtime errors (KeyError, TypeError).
-/

namespace UApi

/-- A dynamic Python value, as far as the user-api core inspects it. -/
inductive Value where
  | vNone
  | vBool (b : Bool)
  | vInt (n : Int)
  | vStr (s : String)
  | vList (xs : List Value)
  | vDict (kvs : List (String × Value))

/-- A Python dict with string keys, in insertion order. -/
abbrev Dict := List (String × Value)

/-- Python truthiness, as used by `if not payload[u"active"]`. -/
def pyTruthy : Value → Bool
  | .vNone => false
  | .vBool b => b
  | .vInt n => n != 0
  | .vStr s => s != ""
  | .vList xs => !xs.isEmpty
  | .vDict kvs => !kvs.isEmpty

/-- The public error taxonomy of the Account Service (spec section 7).
`ApiConflict`, `ApiNotFound`, `ApiForbidden`, `ApiUnauthorized`,
`ApiUnprocessableEntity` are imported by the source; `TokenInvalid` is
raised by the token authority. -/
inductive ApiError where
  | conflict (msg : String)
  | notFound (msg : String)
  | forbidden (msg : String)
  | unauthorized (msg : String)
  | unprocessableEntity (msg : String)
  | tokenInvalid (msg : String)
deriving DecidableEq

/-- Raw store-level exceptions (`DBUserConflict`, `DBUserNotFound`). -/
inductive DBError where
  | userConflict
  | userNotFound
deriving DecidableEq

/-- Everything a method of the core can raise: a typed API error, a raw
store exception that leaked through, or a plain Python runtime error
(KeyError, TypeError). -/
inductive Exc where
  | api (e : ApiError)
  | db (e : DBError)
  | pyError (msg : String)

/-- Python `d[k]`: the value under `k`, or a KeyError. -/
def pyGet : Dict → String → Except Exc Value
  | [], k => .error (.pyError ("KeyError: " ++ k))
  | (k2, v) :: rest, k => if k2 = k then .ok v else pyGet rest k

/-- Python `d[k] = v`: overwrite in place if the key exists (keeping its
position), otherwise append the new binding. -/
def dictSet : Dict → String → Value → Dict
  | [], k, v => [(k, v)]
  | (k2, v2) :: rest, k, v =>
    if k2 = k then (k, v) :: rest else (k2, v2) :: dictSet rest k v

/-- Python `d.get(k)` with a default. -/
def dictGetD (d : Dict) (k : String) (dflt : Value) : Value :=
  match pyGet d k with
  | .ok v => v
  | .error _ => dflt

/-- Equality of scalar database key values (emails, ids).  Composite
values are never equal as keys. -/
def scalarEq : Value → Value → Bool
  | .vNone, .vNone => true
  | .vBool a, .vBool b => a == b
  | .vInt a, .vInt b => a == b
  | .vStr a, .vStr b => a == b
  | _, _ => false

/-- Python equality of a `str` with an arbitrary value: true exactly for
an equal string (`str.__eq__` with a non-string is `False`). -/
def strValueEq (r : String) : Value → Bool
  | .vStr s => r == s
  | _ => false

/-! ### Token Authority (spec section 4.1, not in `src/`) -/

/-- Modelled from the spec: a token is a signed, time-scoped artifact
embedding a snapshot of the user payload at issuance; validity is
determined solely by signature and expiry.  The signature is abstracted
as the process-held secret (hash-algorithm internals are out of the
spec's scope). -/
structure Token where
  payload : Dict
  exp : Nat
  sig : Nat

/-- Modelled from the spec: the token authority.  `saltSupply` is the
fresh random salt the next `generate_salt()` call returns; `hashFn` is
the opaque key-derivation function `generate_hash` applies. -/
structure AuthManager where
  secret : Nat
  now : Nat
  ttl : Nat
  hashFn : Value → String → String
  saltSupply : String

/-- Modelled from the spec: `generate_salt() -> Salt`, the fresh salt of
this call, drawn from the manager's supply. -/
def AuthManager.generate_salt (a : AuthManager) : String :=
  a.saltSupply

/-- Modelled from the spec: `generate_hash(password, salt) -> Hash`, a
deterministic one-way function of password and salt. -/
def AuthManager.generate_hash (a : AuthManager) (password : Value) (salt : String) : String :=
  a.hashFn password salt

/-- Modelled from the spec: `generate_token(payload) -> Token` serializes
the payload, attaches an expiry and signs with the process-held secret. -/
def AuthManager.generate_token (a : AuthManager) (p : Dict) : Token :=
  ⟨p, a.now + a.ttl, a.secret⟩

/-- Modelled from the spec: `get_token_data(token) -> Payload` verifies
signature and expiry, raises `TokenInvalid` on any verification failure,
otherwise returns the embedded payload.  The error carries the
`TokenInvalid` message. -/
def AuthManager.get_token_data (a : AuthManager) (t : Token) : Except String Dict :=
  if t.sig = a.secret ∧ a.now ≤ t.exp then .ok t.payload else .error "Token is invalid."

/-- Modelled from the spec: `is_token_valid(token) -> bool`, the
non-throwing variant of `get_token_data`. -/
def AuthManager.is_token_valid (a : AuthManager) (t : Token) : Bool :=
  match a.get_token_data t with
  | .ok _ => true
  | .error _ => false

/-! ### Credential Store and Role Store (spec section 6, not in `src/`) -/

/-- A persisted user record: id, profile fields, the bound credential
(salt, hash) and the assigned roles (role dicts). -/
structure UserRec where
  uid : Int
  uname : Value
  active : Value
  hash : String
  salt : String
  uroles : List Value

/-- The credential store state: user records keyed by their (scalar)
email value, in insertion order. -/
structure StoreState where
  users : List (Value × UserRec)

/-- First record whose email key equals the given scalar key. -/
def lookupKey : List (Value × UserRec) → Value → Option (Value × UserRec)
  | [], _ => none
  | (k, r) :: rest, key => if scalarEq k key then some (k, r) else lookupKey rest key

/-- First record whose id equals the given scalar key. -/
def lookupId : List (Value × UserRec) → Value → Option (Value × UserRec)
  | [], _ => none
  | (k, r) :: rest, key =>
    if scalarEq (.vInt r.uid) key then some (k, r) else lookupId rest key

/-- The payload dict the store serves for a user record. -/
def userPayload (email : Value) (r : UserRec) (with_roles : Bool) : Dict :=
  [("id", .vInt r.uid), ("email", email), ("name", r.uname), ("active", r.active)]
    ++ (if with_roles then [("roles", .vList r.uroles)] else [])

namespace DBUserManager

/-- Modelled from the spec: `get_user_salt(email) -> Salt`, fails with
`DBUserNotFound` when the email is absent. -/
def get_user_salt (s : StoreState) (email : String) : Except DBError String :=
  match lookupKey s.users (.vStr email) with
  | some (_, r) => .ok r.salt
  | none => .error .userNotFound

/-- Modelled from the spec: `is_user_hash_valid(email, hash) -> bool`. -/
def is_user_hash_valid (s : StoreState) (email : String) (hash : String) : Bool :=
  match lookupKey s.users (.vStr email) with
  | some (_, r) => r.hash == hash
  | none => false

/-- Modelled from the spec: `get_user_information(email_or_id, with_roles?)
-> Payload | None`.  An absent user yields `None`; no exception is
raised. -/
def get_user_information (s : StoreState) (email_or_id : Value) (with_roles : Bool) :
    Option Dict :=
  match lookupKey s.users email_or_id with
  | some (k, r) => some (userPayload k r with_roles)
  | none =>
    match lookupId s.users email_or_id with
    | some (k, r) => some (userPayload k r with_roles)
    | none => none

/-- Replace the credential of the record under the given email key. -/
def modifyUsers : List (Value × UserRec) → Value → String → String → List (Value × UserRec)
  | [], _, _, _ => []
  | (k, r) :: rest, key, h, sl =>
    if scalarEq k key then (k, ⟨r.uid, r.uname, r.active, h, sl, r.uroles⟩) :: rest
    else (k, r) :: modifyUsers rest key h sl

/-- Modelled from the spec: `modify_hash_salt(email, hash, salt) -> void`,
declares no failure; an absent email leaves the store unchanged. -/
def modify_hash_salt (s : StoreState) (email : String) (hash salt : String) : StoreState :=
  ⟨modifyUsers s.users (.vStr email) hash salt⟩

/-- Modelled from the spec: `save_new_user(email, name, hash, salt,
active?, roles?) -> Payload`, fails with `DBUserConflict` when the email
already exists. -/
def save_new_user (s : StoreState) (email uname active : Value) (hash salt : String)
    (roles : Value) : Except DBError (StoreState × Dict) :=
  match lookupKey s.users email with
  | some _ => .error .userConflict
  | none =>
    let uid : Int := (s.users.length : Int) + 1
    let rlist : List Value := match roles with | .vList xs => xs | _ => []
    let r : UserRec := ⟨uid, uname, active, hash, salt, rlist⟩
    .ok (⟨(email, r) :: s.users⟩, userPayload email r true)

/-- Modelled from the spec: `update_user_information(user_id, **fields)
-> Payload`, fails with `DBUserNotFound` for an unknown id and with
`DBUserConflict` when the new email collides with another user. -/
def update_user_information (s : StoreState) (fields : Dict) :
    Except DBError (StoreState × Dict) :=
  match lookupId s.users (dictGetD fields "user_id" .vNone) with
  | none => .error .userNotFound
  | some (k, r) =>
    let newEmail := dictGetD fields "email" k
    if !(scalarEq newEmail k) && (lookupKey s.users newEmail).isSome then
      .error .userConflict
    else
      let r2 : UserRec :=
        ⟨r.uid, dictGetD fields "name" r.uname, dictGetD fields "active" r.active,
         r.hash, r.salt, r.uroles⟩
      let users2 := (modifyUsers s.users k r2.hash r2.salt).map
        (fun p => if scalarEq p.1 k then (newEmail, r2) else p)
      .ok (⟨users2⟩, userPayload newEmail r2 true)

end DBUserManager

namespace DBRoleManager

/-- Modelled from the spec: `get_user_roles(user_id) -> list[Role]`, the
role dicts assigned to that user. -/
def get_user_roles (s : StoreState) (user_id : Value) : List Value :=
  match lookupId s.users user_id with
  | some (_, r) => r.uroles
  | none => []

end DBRoleManager

/-! ### The `UserApi` facade, translated from `src/user_api/user_api.py` -/

namespace UserApi

/-- `UserApi.get_user_information` (source lines 47-58): passes the lookup
straight through to the store.  Under the store contract
(`Payload | None`) this call cannot raise. -/
def get_user_information (s : StoreState) (user_id : Value) (with_roles : Bool) :
    Option Dict :=
  DBUserManager.get_user_information s user_id with_roles

/-- `UserApi.update` (source lines 60-77): writes `user_id` into the
caller's payload dict in place, then asks the store to update, mapping
`DBUserConflict` to `ApiConflict` and `DBUserNotFound` to `ApiNotFound`.
The second component of the result is the caller's dict after the call
(the in-place mutation is visible on every outcome). -/
def update (s : StoreState) (payload : Dict) (user_id : Value) :
    StoreState × Dict × Except Exc Dict :=
  let payload2 := dictSet payload "user_id" user_id
  match DBUserManager.update_user_information s payload2 with
  | .ok (s2, user) => (s2, payload2, .ok user)
  | .error .userConflict => (s, payload2, .error (.api (.conflict "")))
  | .error .userNotFound => (s, payload2, .error (.api (.notFound "User not found.")))

/-- `UserApi.authenticate` (source lines 79-113): salt lookup (mapping the
store's not-found to `ApiNotFound`), hash check (`ApiUnauthorized` when
invalid), active-flag check (`ApiUnauthorized` when falsy), then attach
roles and issue a token.  A `None` payload or a missing key at the
re-fetch would surface as a Python runtime error, which the source does
not catch. -/
def authenticate (s : StoreState) (a : AuthManager) (email password : String) :
    Except Exc (Dict × Token) :=
  match DBUserManager.get_user_salt s email with
  | .error .userNotFound =>
    .error (.api (.notFound ("Can\x27t find user " ++ email ++ ".")))
  | .error e => .error (.db e)
  | .ok salt =>
    let hash := a.generate_hash (.vStr password) salt
    let valid := DBUserManager.is_user_hash_valid s email hash
    if !valid then
      .error (.api (.unauthorized "Wrong login or / and password."))
    else
      match DBUserManager.get_user_information s (.vStr email) true with
      | none => .error (.pyError "TypeError: NoneType is not subscriptable")
      | some payload =>
        match pyGet payload "active" with
        | .error e => .error e
        | .ok activeV =>
          if !(pyTruthy activeV) then
            .error (.api (.unauthorized "User is not active."))
          else
            match pyGet payload "id" with
            | .error e => .error e
            | .ok uid =>
              let payload2 :=
                dictSet payload "roles" (.vList (DBRoleManager.get_user_roles s uid))
              (.ok (payload2, a.generate_token payload2))

/-- `UserApi.reset_password` (source lines 115-134): generate a fresh
salt, derive the new hash, persist both, then re-fetch the payload.  The
source wraps the re-fetch in `try ... except DBUserNotFound`, but under
the store contract `get_user_information` returns `None` rather than
raising for an absent user, so that handler can never fire and the
re-fetched value (possibly `None`) is returned as is. -/
def reset_password (s : StoreState) (a : AuthManager) (email password : String) :
    StoreState × Except Exc (Option Dict) :=
  let salt := a.generate_salt
  let hash := a.generate_hash (.vStr password) salt
  let s2 := DBUserManager.modify_hash_salt s email hash salt
  let payload := DBUserManager.get_user_information s2 (.vStr email) true
  (s2, .ok payload)

/-- `UserApi.register` (source lines 136-157): generate salt and hash
from `payload.get("password")`, ask the store to create the user, map
`DBUserConflict` to `ApiConflict`. -/
def register (s : StoreState) (a : AuthManager) (payload : Dict) :
    StoreState × Except Exc Dict :=
  let salt := a.generate_salt
  let hash := a.generate_hash (dictGetD payload "password" .vNone) salt
  match DBUserManager.save_new_user s (dictGetD payload "email" .vNone)
      (dictGetD payload "name" .vNone) (dictGetD payload "active" .vNone)
      hash salt (dictGetD payload "roles" .vNone) with
  | .ok (s2, user) => (s2, .ok user)
  | .error .userConflict => (s, .error (.api (.conflict "User already exists.")))
  | .error e => (s, .error (.db e))

/-- `UserApi.get_token_data` (source lines 159-168): delegate to the
token authority; its `TokenInvalid` failure propagates. -/
def get_token_data (a : AuthManager) (t : Token) : Except Exc Dict :=
  match a.get_token_data t with
  | .ok p => .ok p
  | .error m => .error (.api (.tokenInvalid m))

/-- `UserApi.is_token_valid` (source lines 170-179): delegate. -/
def is_token_valid (a : AuthManager) (t : Token) : Bool :=
  a.is_token_valid t

/-- The role codes of `token["roles"]`, by the list comprehension
`[role[u"code"] for role in token[u"roles"]]`: a non-dict element is a
TypeError, a dict without `"code"` is a KeyError, evaluated left to
right. -/
def extractRoleCodes : List Value → Except Exc (List Value)
  | [] => .ok []
  | r :: rs =>
    match r with
    | .vDict d =>
      match pyGet d "code" with
      | .error e => .error e
      | .ok c =>
        match extractRoleCodes rs with
        | .error e => .error e
        | .ok cs => .ok (c :: cs)
    | _ => .error (.pyError "TypeError: value is not subscriptable")

/-- `UserApi.token_has_roles` (source lines 215-237): decode the token
(the authority's `TokenInvalid` propagates), extract the payload's role
codes, collect the required roles that are missing (in the order of
`roles`, Python membership of a string comparing equal only to an equal
string), raise `ApiForbidden` naming all of them when any is missing,
otherwise return `True`. -/
def token_has_roles (a : AuthManager) (t : Token) (roles : List String) :
    Except Exc Bool :=
  match a.get_token_data t with
  | .error m => .error (.api (.tokenInvalid m))
  | .ok payload =>
    match pyGet payload "roles" with
    | .error e => .error e
    | .ok rolesV =>
      match rolesV with
      | .vList rs =>
        match extractRoleCodes rs with
        | .error e => .error e
        | .ok user_roles =>
          let missing_roles := roles.filter (fun r => !(user_roles.any (strValueEq r)))
          if missing_roles.length > 0 then
            .error (.api (.forbidden
              ("You don\x27t have the " ++ String.intercalate ", " missing_roles
                ++ " role(s).")))
          else
            .ok true
      | _ => .error (.pyError "TypeError: value is not iterable")

end UserApi

/-- A result lies in the public error taxonomy: it is a success value or
one typed `ApiError`; never a raw store exception or a Python runtime
error. -/
def inTaxonomy {α : Type} : Except Exc α → Prop
  | .ok _ => True
  | .error (.api _) => True
  | .error (.db _) => False
  | .error (.pyError _) => False

/-! ### Concrete fixtures used by the witnesses -/

/-- A token authority whose KDF tags the salt and whose next fresh salt
is `"salt1"`. -/
def exAuth : AuthManager := ⟨0, 0, 10, fun _ sl => "H" ++ sl, "salt1"⟩

/-- The role dict with code `"admin"`. -/
def exRoleAdmin : Value := .vDict [("code", .vStr "admin")]

/-- A validly signed, unexpired token carrying exactly the role
`"admin"`. -/
def exTok : Token := ⟨[("roles", .vList [exRoleAdmin])], 5, 0⟩

/-- A token whose signature does not match `exAuth`'s secret. -/
def exTokBad : Token := ⟨[("roles", .vList [])], 5, 99⟩

/-- An active user whose stored hash matches password-independent
derivation with salt `"salt0"`. -/
def exRecActive : UserRec := ⟨1, .vStr "Alice", .vBool true, "Hsalt0", "salt0", [exRoleAdmin]⟩

/-- A user whose stored hash matches no derived hash of `exAuth`. -/
def exRecWrongHash : UserRec := ⟨2, .vStr "Bob", .vBool true, "other", "salt0", []⟩

/-- An inactive user with a matching stored hash. -/
def exRecInactive : UserRec := ⟨3, .vStr "Carol", .vBool false, "Hsalt0", "salt0", []⟩

/-- A store with the three users above. -/
def exStore : StoreState :=
  ⟨[(.vStr "a@b.c", exRecActive), (.vStr "b@b.c", exRecWrongHash),
    (.vStr "c@b.c", exRecInactive)]⟩

/-- A registration payload for a fresh user. -/
def exRegPayload : Dict :=
  [("email", .vStr "n@b.c"), ("name", .vStr "N"), ("password", .vStr "pw"),
   ("active", .vBool true)]

/-! ### Helper lemmas -/

/-- Python membership of a string in a list of string values is plain
list membership of the underlying strings. -/
theorem any_strValueEq_map_vStr (codes : List String) (r : String) :
    (codes.map Value.vStr).any (strValueEq r) = decide (r ∈ codes) := by
  induction codes with
  | nil => rfl
  | cons c cs ih =>
    by_cases h : r = c <;>
      simp [strValueEq, ih, List.mem_cons, h]

/-- Setting a key makes the dict hold exactly that value under the key. -/
theorem pyGet_dictSet_self (d : Dict) (k : String) (v : Value) :
    pyGet (dictSet d k v) k = .ok v := by
  induction d with
  | nil => simp [dictSet, pyGet]
  | cons kv rest ih =>
    obtain ⟨k2, v2⟩ := kv
    by_cases h : k2 = k <;> simp [dictSet, pyGet, h, ih]

/-- Setting a key leaves every other key unchanged. -/
theorem pyGet_dictSet_ne : ∀ (d : Dict) (k : String) (v : Value) (k2 : String),
    k2 ≠ k → pyGet (dictSet d k v) k2 = pyGet d k2
  | [], k, v, k2, h => by
    have hne : ¬ k = k2 := fun hk => h hk.symm
    simp [dictSet, pyGet, hne]
  | (k3, v3) :: rest, k, v, k2, h => by
    by_cases h3 : k3 = k
    · rw [dictSet, if_pos h3]
      have hne : ¬ k = k2 := fun hk => h hk.symm
      have hne3 : ¬ k3 = k2 := fun hk => hne (h3.symm.trans hk)
      rw [pyGet, if_neg hne, pyGet, if_neg hne3]
    · rw [dictSet, if_neg h3]
      by_cases h2 : k3 = k2
      · rw [pyGet, if_pos h2, pyGet, if_pos h2]
      · rw [pyGet, if_neg h2, pyGet, if_neg h2]
        exact pyGet_dictSet_ne rest k v k2 h

/-- The store payload always carries the `"active"` field of the
record. -/
theorem pyGet_userPayload_active (k : Value) (r : UserRec) (wr : Bool) :
    pyGet (userPayload k r wr) "active" = .ok r.active := by
  cases wr <;> rfl

/-- The store payload always carries the `"id"` field of the record. -/
theorem pyGet_userPayload_id (k : Value) (r : UserRec) (wr : Bool) :
    pyGet (userPayload k r wr) "id" = .ok (.vInt r.uid) := by
  cases wr <;> rfl

/-- `get_user_salt` only ever fails with the not-found signal. -/
theorem get_user_salt_not_conflict (s : StoreState) (email : String) :
    DBUserManager.get_user_salt s email ≠ .error .userConflict := by
  unfold DBUserManager.get_user_salt
  cases lookupKey s.users (.vStr email) <;> simp

/-- `save_new_user` only ever fails with the conflict signal. -/
theorem save_new_user_not_notFound (s : StoreState) (email uname active : Value)
    (hash salt : String) (roles : Value) :
    DBUserManager.save_new_user s email uname active hash salt roles
      ≠ .error .userNotFound := by
  unfold DBUserManager.save_new_user
  cases lookupKey s.users email <;> simp

/-- A positive hash check implies the user record is present under the
email key. -/
theorem is_user_hash_valid_lookup (s : StoreState) (email : String) (h : String)
    (hv : DBUserManager.is_user_hash_valid s email h = true) :
    ∃ k r, lookupKey s.users (.vStr email) = some (k, r) := by
  unfold DBUserManager.is_user_hash_valid at hv
  cases hl : lookupKey s.users (.vStr email) with
  | none => rw [hl] at hv; exact absurd hv (by simp)
  | some p =>
    obtain ⟨k, r⟩ := p
    exact ⟨k, r, rfl⟩

/-- Replacing a credential rewrites exactly the record found under the
key, keeping its position and profile fields. -/
theorem lookupKey_modifyUsers (users : List (Value × UserRec)) (key : Value)
    (h sl : String) (k : Value) (r : UserRec)
    (hl : lookupKey users key = some (k, r)) :
    lookupKey (DBUserManager.modifyUsers users key h sl) key
      = some (k, ⟨r.uid, r.uname, r.active, h, sl, r.uroles⟩) := by
  induction users with
  | nil => simp [lookupKey] at hl
  | cons p rest ih =>
    obtain ⟨k1, r1⟩ := p
    by_cases hk : scalarEq k1 key = true
    · rw [lookupKey, if_pos hk] at hl
      injection hl with hl2
      injection hl2 with hk1 hr1
      subst hk1; subst hr1
      rw [DBUserManager.modifyUsers, if_pos hk, lookupKey, if_pos hk]
    · rw [lookupKey, if_neg hk] at hl
      rw [DBUserManager.modifyUsers, if_neg hk, lookupKey, if_neg hk]
      exact ih hl

/-! ### Claims -/

/-- Claim C1: for every token whose decoding succeeds and whose payload
carries a list of role dicts with string codes, `token_has_roles`
computes exactly the required roles absent from the payload's role codes,
kept in the order of `required`; when that list is non-empty it fails
with `Forbidden` naming every missing role (joined by `", "` in that
order), otherwise it returns `True`.  The witness covers the
admin/editor instance of the claim. -/
theorem c1_token_has_roles_missing_roles (a : AuthManager) (t : Token)
    (required : List String) (p : Dict) (rs : List Value) (codes : List String)
    (hdec : a.get_token_data t = .ok p)
    (hroles : pyGet p "roles" = .ok (.vList rs))
    (hcodes : UserApi.extractRoleCodes rs = .ok (codes.map Value.vStr)) :
    (∀ r : String, r ∈ required.filter (fun r => decide (r ∉ codes)) ↔
        r ∈ required ∧ r ∉ codes) ∧
    (required.filter (fun r => decide (r ∉ codes)) = [] →
        UserApi.token_has_roles a t required = .ok true) ∧
    (required.filter (fun r => decide (r ∉ codes)) ≠ [] →
        UserApi.token_has_roles a t required =
          .error (.api (.forbidden ("You don\x27t have the "
            ++ String.intercalate ", " (required.filter (fun r => decide (r ∉ codes)))
            ++ " role(s).")))) := by
  have hfilter : required.filter (fun r => !((codes.map Value.vStr).any (strValueEq r)))
      = required.filter (fun r => decide (r ∉ codes)) := by
    apply List.filter_congr
    intro r _
    rw [any_strValueEq_map_vStr]
    simp
  have hbody : UserApi.token_has_roles a t required =
      (if (required.filter (fun r => decide (r ∉ codes))).length > 0 then
        .error (.api (.forbidden ("You don\x27t have the "
          ++ String.intercalate ", " (required.filter (fun r => decide (r ∉ codes)))
          ++ " role(s).")))
      else .ok true) := by
    simp only [UserApi.token_has_roles, hdec, hroles, hcodes, hfilter]
  refine ⟨?_, ?_, ?_⟩
  · intro r
    simp [List.mem_filter]
  · intro hempty
    rw [hbody, hempty]
    simp
  · intro hne
    rw [hbody, if_pos (List.length_pos.mpr hne)]

/-- Witness for C1: a token carrying exactly the role `admin`, checked
against `["admin", "editor"]`, fails with `Forbidden` naming exactly
`editor`. -/
theorem c1_witness :
    UserApi.token_has_roles exAuth exTok ["admin", "editor"]
      = .error (.api (.forbidden "You don\x27t have the editor role(s).")) := by
  have h := c1_token_has_roles_missing_roles exAuth exTok ["admin", "editor"]
    exTok.payload [exRoleAdmin] ["admin"] rfl rfl rfl
  exact h.2.2 (by decide)

/-- Claim C5: whenever decoding the token fails, `token_has_roles`
propagates the `TokenInvalid` failure for every required-role list,
never converting it into a boolean or a `Forbidden`. -/
theorem c5_token_invalid_propagates (a : AuthManager) (t : Token) (m : String)
    (hdec : a.get_token_data t = .error m) (roles : List String) :
    UserApi.token_has_roles a t roles = .error (.api (.tokenInvalid m)) := by
  simp [UserApi.token_has_roles, hdec]

/-- Witness for C5: a token with a wrong signature fails with
`TokenInvalid`. -/
theorem c5_witness :
    UserApi.token_has_roles exAuth exTokBad ["admin"]
      = .error (.api (.tokenInvalid "Token is invalid.")) :=
  c5_token_invalid_propagates exAuth exTokBad "Token is invalid." rfl ["admin"]

/-- Claim C10: with an empty required-role list, any token that decodes
to a payload with a well-formed roles list is authorized: the missing
set is empty and the `Forbidden` branch is unreachable. -/
theorem c10_empty_required_roles (a : AuthManager) (t : Token) (p : Dict)
    (rs : List Value) (codes : List Value)
    (hdec : a.get_token_data t = .ok p)
    (hroles : pyGet p "roles" = .ok (.vList rs))
    (hcodes : UserApi.extractRoleCodes rs = .ok codes) :
    UserApi.token_has_roles a t [] = .ok true := by
  simp [UserApi.token_has_roles, hdec, hroles, hcodes]

/-- Witness for C10. -/
theorem c10_witness : UserApi.token_has_roles exAuth exTok [] = .ok true :=
  c10_empty_required_roles exAuth exTok exTok.payload [exRoleAdmin]
    [.vStr "admin"] rfl rfl rfl

/-- Claim C2: `authenticate` distinguishes its two credential failures:
a not-found salt lookup fails with `NotFound`, a found salt whose derived
hash the store rejects fails with `Unauthorized`. -/
theorem c2_authenticate_error_kinds (s : StoreState) (a : AuthManager)
    (email pw : String) :
    (DBUserManager.get_user_salt s email = .error .userNotFound →
      UserApi.authenticate s a email pw =
        .error (.api (.notFound ("Can\x27t find user " ++ email ++ ".")))) ∧
    (∀ salt, DBUserManager.get_user_salt s email = .ok salt →
      DBUserManager.is_user_hash_valid s email
          (a.generate_hash (.vStr pw) salt) = false →
      UserApi.authenticate s a email pw =
        .error (.api (.unauthorized "Wrong login or / and password."))) := by
  constructor
  · intro h
    simp [UserApi.authenticate, h]
  · intro salt hsalt hvalid
    simp [UserApi.authenticate, hsalt, hvalid]

/-- Witness for C2: an unknown email gives `NotFound`; a known email
with a rejected hash gives `Unauthorized`. -/
theorem c2_witness :
    UserApi.authenticate exStore exAuth "x@y.z" "pw" =
      .error (.api (.notFound "Can\x27t find user x@y.z.")) ∧
    UserApi.authenticate exStore exAuth "b@b.c" "pw" =
      .error (.api (.unauthorized "Wrong login or / and password.")) :=
  ⟨(c2_authenticate_error_kinds exStore exAuth "x@y.z" "pw").1 rfl,
    (c2_authenticate_error_kinds exStore exAuth "b@b.c" "pw").2 "salt0" rfl rfl⟩

/-- Claim C6: after the credential check succeeds and the payload is
present with a boolean `active` flag, `authenticate` fails with
`Unauthorized` when the flag is false; when it is true it attaches the
roles fetched from the role store and issues a token over the role-bearing
payload. -/
theorem c6_authenticate_active_flag (s : StoreState) (a : AuthManager)
    (email pw salt : String) (p : Dict) (b : Bool)
    (hsalt : DBUserManager.get_user_salt s email = .ok salt)
    (hvalid : DBUserManager.is_user_hash_valid s email
        (a.generate_hash (.vStr pw) salt) = true)
    (hinfo : DBUserManager.get_user_information s (.vStr email) true = some p)
    (hactive : pyGet p "active" = .ok (.vBool b)) :
    (b = false →
      UserApi.authenticate s a email pw =
        .error (.api (.unauthorized "User is not active."))) ∧
    (∀ uid, b = true → pyGet p "id" = .ok uid →
      UserApi.authenticate s a email pw =
        .ok (dictSet p "roles" (.vList (DBRoleManager.get_user_roles s uid)),
             a.generate_token
               (dictSet p "roles" (.vList (DBRoleManager.get_user_roles s uid))))) := by
  constructor
  · intro hb
    subst hb
    simp [UserApi.authenticate, hsalt, hvalid, hinfo, hactive, pyTruthy]
  · intro uid hb hid
    subst hb
    simp [UserApi.authenticate, hsalt, hvalid, hinfo, hactive, hid, pyTruthy]

/-- Witness for C6: the inactive user is rejected with `Unauthorized`,
the active user gets a payload with roles attached and a token over it. -/
theorem c6_witness :
    UserApi.authenticate exStore exAuth "c@b.c" "pw" =
      .error (.api (.unauthorized "User is not active.")) ∧
    UserApi.authenticate exStore exAuth "a@b.c" "pw" =
      .ok (dictSet (userPayload (.vStr "a@b.c") exRecActive true) "roles"
             (.vList [exRoleAdmin]),
           exAuth.generate_token
             (dictSet (userPayload (.vStr "a@b.c") exRecActive true) "roles"
               (.vList [exRoleAdmin]))) := by
  constructor
  · exact (c6_authenticate_active_flag exStore exAuth "c@b.c" "pw" "salt0"
      (userPayload (.vStr "c@b.c") exRecInactive true) false rfl rfl rfl rfl).1 rfl
  · exact (c6_authenticate_active_flag exStore exAuth "a@b.c" "pw" "salt0"
      (userPayload (.vStr "a@b.c") exRecActive true) true rfl rfl rfl rfl).2
      (.vInt 1) rfl rfl

/-- Claim C8: decoding a freshly issued token with the same secret at any
verification time within the expiry window reproduces the embedded
payload exactly; no store is consulted (the decoder takes none). -/
theorem c8_token_roundtrip (a a2 : AuthManager) (p : Dict)
    (hsecret : a2.secret = a.secret) (hnow : a2.now ≤ a.now + a.ttl) :
    UserApi.get_token_data a2 (a.generate_token p) = .ok p := by
  simp [UserApi.get_token_data, AuthManager.get_token_data,
    AuthManager.generate_token, hsecret, hnow]

/-- Witness for C8: the round trip on a payload carrying roles. -/
theorem c8_witness :
    UserApi.get_token_data exAuth (exAuth.generate_token exTok.payload)
      = .ok exTok.payload :=
  c8_token_roundtrip exAuth exAuth exTok.payload rfl (by decide)

/-- Claim C9: `update` writes `user_id` into the caller's payload dict in
place before calling the store, so on every outcome (success, `Conflict`
or `NotFound`) the caller's dict holds the `user_id` argument under
`"user_id"`, overwriting any prior binding, and every other key is
untouched by the core. -/
theorem c9_update_mutates_payload (s : StoreState) (payload : Dict)
    (user_id : Value) :
    (UserApi.update s payload user_id).2.1 = dictSet payload "user_id" user_id ∧
    pyGet (UserApi.update s payload user_id).2.1 "user_id" = .ok user_id ∧
    ∀ k, k ≠ "user_id" →
      pyGet (UserApi.update s payload user_id).2.1 k = pyGet payload k := by
  have h1 : (UserApi.update s payload user_id).2.1
      = dictSet payload "user_id" user_id := by
    simp only [UserApi.update]
    cases DBUserManager.update_user_information s (dictSet payload "user_id" user_id) with
    | ok v => obtain ⟨s2, user⟩ := v; rfl
    | error e => cases e <;> rfl
  refine ⟨h1, ?_, ?_⟩
  · rw [h1]
    exact pyGet_dictSet_self payload "user_id" user_id
  · intro k hk
    rw [h1]
    exact pyGet_dictSet_ne payload "user_id" user_id k hk

/-- Witness for C9: an existing `"user_id"` binding is overwritten while
`"name"` survives. -/
theorem c9_witness :
    pyGet (UserApi.update exStore [("user_id", .vInt 9), ("name", .vStr "x")]
        (.vInt 3)).2.1 "user_id" = .ok (.vInt 3) ∧
    pyGet (UserApi.update exStore [("user_id", .vInt 9), ("name", .vStr "x")]
        (.vInt 3)).2.1 "name" = .ok (.vStr "x") := by
  refine ⟨(c9_update_mutates_payload exStore
    [("user_id", .vInt 9), ("name", .vStr "x")] (.vInt 3)).2.1, ?_⟩
  rw [(c9_update_mutates_payload exStore
    [("user_id", .vInt 9), ("name", .vStr "x")] (.vInt 3)).2.2 "name" (by decide)]
  rfl

/-- Claim C3, evaluated at the failing input: with the contracted store
(whose `get_user_information` returns `None` rather than raising for an
absent user), resetting the password of an absent email leaves the user
absent at the re-read, yet `reset_password` returns a plain `None`
instead of failing with `UnprocessableEntity` — the
`except DBUserNotFound` handler around the re-read can never fire. -/
theorem c3_reset_password_absent_user :
    DBUserManager.get_user_information
        (UserApi.reset_password ⟨[]⟩ exAuth "absent@example.com" "pw").1
        (.vStr "absent@example.com") true = none ∧
    (UserApi.reset_password ⟨[]⟩ exAuth "absent@example.com" "pw").2 = .ok none :=
  ⟨rfl, rfl⟩

/-- Claim C4: every store-touching operation of the facade either returns
a value or fails with exactly one error of the public taxonomy; raw store
exceptions and Python runtime errors never escape.  `get_user_information`
passes the contracted `Payload | None` lookup straight through and cannot
raise. -/
theorem c4_error_taxonomy (s : StoreState) (a : AuthManager) (user_id : Value)
    (wr : Bool) (email pw : String) (payload : Dict) :
    (UserApi.get_user_information s user_id wr
        = DBUserManager.get_user_information s user_id wr) ∧
    inTaxonomy (UserApi.authenticate s a email pw) ∧
    inTaxonomy (UserApi.reset_password s a email pw).2 ∧
    inTaxonomy (UserApi.update s payload user_id).2.2 ∧
    inTaxonomy (UserApi.register s a payload).2 := by
  refine ⟨rfl, ?_, ?_, ?_, ?_⟩
  · cases hs : DBUserManager.get_user_salt s email with
    | error e =>
      cases e with
      | userConflict => exact absurd hs (get_user_salt_not_conflict s email)
      | userNotFound => simp [UserApi.authenticate, hs, inTaxonomy]
    | ok salt =>
      cases hv : DBUserManager.is_user_hash_valid s email
          (a.generate_hash (.vStr pw) salt) with
      | false => simp [UserApi.authenticate, hs, hv, inTaxonomy]
      | true =>
        obtain ⟨k, r, hl⟩ := is_user_hash_valid_lookup s email _ hv
        have hinfo : DBUserManager.get_user_information s (.vStr email) true
            = some (userPayload k r true) := by
          unfold DBUserManager.get_user_information
          rw [hl]
        cases hact : pyTruthy r.active with
        | false =>
          simp [UserApi.authenticate, hs, hv, hinfo, pyGet_userPayload_active,
            hact, inTaxonomy]
        | true =>
          simp [UserApi.authenticate, hs, hv, hinfo, pyGet_userPayload_active,
            pyGet_userPayload_id, hact, inTaxonomy]
  · simp [UserApi.reset_password, inTaxonomy]
  · simp only [UserApi.update]
    cases DBUserManager.update_user_information s (dictSet payload "user_id" user_id) with
    | ok v =>
      obtain ⟨s2, u⟩ := v
      simp [inTaxonomy]
    | error e => cases e <;> simp [inTaxonomy]
  · simp only [UserApi.register]
    cases hr : DBUserManager.save_new_user s (dictGetD payload "email" .vNone)
        (dictGetD payload "name" .vNone) (dictGetD payload "active" .vNone)
        (a.generate_hash (dictGetD payload "password" .vNone) a.generate_salt)
        a.generate_salt (dictGetD payload "roles" .vNone) with
    | ok v =>
      obtain ⟨s2, u⟩ := v
      simp [inTaxonomy]
    | error e =>
      cases e with
      | userConflict => simp [inTaxonomy]
      | userNotFound =>
        exact absurd hr (save_new_user_not_notFound s _ _ _ _ _ _)

/-- Claim C7: both password-setting operations persist the salt produced
by this call's `generate_salt` and, alongside it, the hash derived from
the given password and that same fresh salt; when the generated salt
differs from the stored one (freshness), the stored salt changes. -/
theorem c7_password_ops_fresh_salt (s : StoreState) (a : AuthManager)
    (email pw : String) (payload : Dict) :
    (∀ k rec, lookupKey s.users (.vStr email) = some (k, rec) →
      ∃ rec2, lookupKey (UserApi.reset_password s a email pw).1.users (.vStr email)
          = some (k, rec2) ∧
        rec2.salt = a.generate_salt ∧
        rec2.hash = a.generate_hash (.vStr pw) a.generate_salt ∧
        (a.generate_salt ≠ rec.salt → rec2.salt ≠ rec.salt)) ∧
    (∀ s2 user, UserApi.register s a payload = (s2, .ok user) →
      ∃ k rec2 rest, s2.users = (k, rec2) :: rest ∧
        rec2.salt = a.generate_salt ∧
        rec2.hash = a.generate_hash (dictGetD payload "password" .vNone)
          a.generate_salt) := by
  constructor
  · intro k rec hl
    refine ⟨⟨rec.uid, rec.uname, rec.active,
      a.generate_hash (.vStr pw) a.generate_salt, a.generate_salt, rec.uroles⟩,
      ?_, rfl, rfl, ?_⟩
    · exact lookupKey_modifyUsers s.users (.vStr email) _ _ k rec hl
    · intro hfresh
      exact hfresh
  · intro s2 user hreg
    simp only [UserApi.register] at hreg
    cases hr : DBUserManager.save_new_user s (dictGetD payload "email" .vNone)
        (dictGetD payload "name" .vNone) (dictGetD payload "active" .vNone)
        (a.generate_hash (dictGetD payload "password" .vNone) a.generate_salt)
        a.generate_salt (dictGetD payload "roles" .vNone) with
    | ok v =>
      obtain ⟨s2x, u⟩ := v
      rw [hr] at hreg
      simp only [Prod.mk.injEq] at hreg
      obtain ⟨hs2, _⟩ := hreg
      subst hs2
      simp only [DBUserManager.save_new_user] at hr
      cases hlk : lookupKey s.users (dictGetD payload "email" .vNone) with
      | some p =>
        rw [hlk] at hr
        exact absurd hr (by simp)
      | none =>
        rw [hlk] at hr
        simp only [Except.ok.injEq, Prod.mk.injEq] at hr
        obtain ⟨hst, _⟩ := hr
        rw [← hst]
        exact ⟨_, _, _, rfl, rfl, rfl⟩
    | error e =>
      rw [hr] at hreg
      cases e <;> simp at hreg

/-- Witness for C7: resetting the password of a present user stores the
fresh salt with its matching derived hash and changes the salt;
registering a fresh user persists the generated salt and derived hash. -/
theorem c7_witness :
    (∃ rec2, lookupKey (UserApi.reset_password exStore exAuth "a@b.c" "pw").1.users
        (.vStr "a@b.c") = some (.vStr "a@b.c", rec2) ∧
      rec2.salt = exAuth.generate_salt ∧
      rec2.hash = exAuth.generate_hash (.vStr "pw") exAuth.generate_salt ∧
      (exAuth.generate_salt ≠ exRecActive.salt → rec2.salt ≠ exRecActive.salt)) ∧
    (∃ k rec2 rest,
      (UserApi.register ⟨[]⟩ exAuth exRegPayload).1.users = (k, rec2) :: rest ∧
      rec2.salt = exAuth.generate_salt ∧
      rec2.hash = exAuth.generate_hash (dictGetD exRegPayload "password" .vNone)
        exAuth.generate_salt) :=
  ⟨(c7_password_ops_fresh_salt exStore exAuth "a@b.c" "pw" exRegPayload).1
      (.vStr "a@b.c") exRecActive rfl,
   (c7_password_ops_fresh_salt ⟨[]⟩ exAuth "a@b.c" "pw" exRegPayload).2
      ⟨[(.vStr "n@b.c", ⟨1, .vStr "N", .vBool true, "Hsalt1", "salt1", []⟩)]⟩
      (userPayload (.vStr "n@b.c") ⟨1, .vStr "N", .vBool true, "Hsalt1", "salt1", []⟩ true)
      rfl⟩

end UApi
